import Mathlib

/-
Verification of the LAN Share module (src/main/modules/lanShare.ts).

The module implements UDP peer discovery plus an HTTP offer/accept/upload
transfer protocol.  The definitions below are a shallow embedding of the
relevant functions: strings are modelled as `String` (or `List Char` where
character-level processing matters), the in-memory pending-upload map as an
association list, the JS number counters as `Int` with the source's
`Math.max(0, n - 1)` clamping made explicit, and each request handler as a
pure function from its inputs (including the outcome of each I/O step) to
the state changes, emitted counter operations and HTTP response it produces.
-/

namespace LanShare

/-- JS `a || b` on strings: the empty string is falsy. -/
def jsOr (a b : String) : String := if a = "" then b else a

/-! ### sanitize (lanShare.ts line 211)

`name.replace(/[\/:*?"<>|]+/g, '_').trim()` — note the character class
contains the forward slash but NOT the backslash, and the `+` quantifier
makes every maximal run of class characters collapse into a single `_`. -/

/-- Characters of the regex character class `[\/:*?"<>|]`. -/
def sanitizeClass : List Char := ['/', ':', '*', '?', '\x22', '<', '>', '|']

/-- Membership in the sanitize character class. -/
def isSanitizeSpecial (c : Char) : Bool := sanitizeClass.contains c

/-- Global regex replace of `[\/:*?"<>|]+` by `'_'`: the boolean flag records
whether we are inside a run of class characters (the `+` collapses runs). -/
def replaceSpecialRuns : Bool → List Char → List Char
  | _, [] => []
  | inRun, c :: rest =>
    if isSanitizeSpecial c then
      if inRun then replaceSpecialRuns true rest
      else '_' :: replaceSpecialRuns true rest
    else
      c :: replaceSpecialRuns false rest

/-- JS `String.prototype.trim`: drop leading and trailing whitespace. -/
def trimChars (l : List Char) : List Char :=
  ((l.dropWhile Char.isWhitespace).reverse.dropWhile Char.isWhitespace).reverse

/-- `sanitize` from lanShare.ts: regex replace, then trim. -/
def sanitize (l : List Char) : List Char :=
  trimChars (replaceSpecialRuns false l)

/-! ### Peer identity (lanShare.ts `getLocalInfo`, lines 154-188) -/

/-- The optional `lan` section of persisted settings.json; the code coerces
each field with `!!`, so absent fields read as `false`. -/
structure LanSettings where
  broadcastDisplayName : Bool
  broadcastLoginName : Bool
deriving DecidableEq

/-- PeerInfo as declared in lanShare.ts (lines 31-42); optional fields are
`Option`, `undefined` is `none`. -/
structure PeerInfo where
  id : String
  name : String
  username : Option String
  displayName : Option String
  hostname : String
  platform : String
  arch : String
  version : Option String
  addresses : List String
  httpPort : Nat
deriving DecidableEq

/-- The ambient inputs `getLocalInfo` reads: module state and OS collaborators.
`lanSettings = none` covers both an absent settings file and a settings file
without a `lan` key (both leave the two booleans `false`). -/
structure LocalEnv where
  instanceId : String
  hostname : String
  /-- `os.userInfo()?.username || ''`. -/
  login : String
  /-- `displayNameCache`, `null` is `none`. -/
  displayNameCache : Option String
  lanSettings : Option LanSettings
  platform : String
  arch : String
  appVersion : Option String
  addresses : List String
  /-- module-level `httpPort`, `null` is `none`. -/
  httpPort : Option Nat
deriving DecidableEq

/-- Effective `broadcastDisplayName` flag (defaults to `false`). -/
def effBroadcastDisplayName (e : LocalEnv) : Bool :=
  (e.lanSettings.map (·.broadcastDisplayName)).getD false

/-- Effective `broadcastLoginName` flag (defaults to `false`). -/
def effBroadcastLoginName (e : LocalEnv) : Bool :=
  (e.lanSettings.map (·.broadcastLoginName)).getD false

/-- `getLocalInfo` (lanShare.ts lines 154-188). -/
def getLocalInfo (e : LocalEnv) : PeerInfo :=
  let dispResolved := jsOr (e.displayNameCache.getD "") (jsOr e.login e.hostname)
  { id := e.instanceId
    name := if effBroadcastDisplayName e then dispResolved else e.hostname
    username := if effBroadcastLoginName e then some e.login else none
    displayName := if effBroadcastDisplayName e then some dispResolved else none
    hostname := e.hostname
    platform := e.platform
    arch := e.arch
    version := e.appVersion
    addresses := e.addresses
    httpPort := e.httpPort.getD 0 }

/-! ### UDP discovery (lanShare.ts `createUdpSocket`, lines 550-592) -/

/-- Request magic string (lanShare.ts line 60). -/
def DISCOVERY_MAGIC_REQ : String := "ERB_DISCOVER_REQ_V1"

/-- Response magic string (lanShare.ts line 61). -/
def DISCOVERY_MAGIC_RES : String := "ERB_DISCOVER_RES_V1"

/-- Shape of a parsed discovery datagram: `data?.t` and `data?.info`,
each possibly absent. -/
structure Envelope where
  t : Option String
  info : Option PeerInfo
deriving DecidableEq

/-- Observable actions of the UDP message handler: a unicast reply carrying
a JSON envelope, or a `lan:peer` discovered-peer event to the renderer. -/
inductive UdpAction where
  | reply (payload : Envelope) (port : Nat) (address : String)
  | peerEvent (info : PeerInfo)
deriving DecidableEq

/-- The branch of the handler that runs after `JSON.parse` on a datagram that
begins with a brace: `data?.t === DISCOVERY_MAGIC_RES && data?.info &&
data?.info.id !== instanceId` forwards the embedded info. -/
def processParsed (instanceId : String) : Option Envelope → List UdpAction
  | some data =>
    match data.info with
    | some i =>
      if data.t = some DISCOVERY_MAGIC_RES ∧ i.id ≠ instanceId then
        [.peerEvent i]
      else []
    | none => []
  | none => []

/-- The UDP `message` handler (lanShare.ts lines 559-581).  `text` is the
datagram decoded as UTF-8 text; `parseJson` abstracts `JSON.parse`
(returning `none` where the library would throw); `srcAddress`/`srcPort`
are `rinfo.address`/`rinfo.port`.  A `JSON.parse` failure is swallowed by
the surrounding try/catch, producing no actions. -/
def handleUdpMessage (localInfo : PeerInfo) (instanceId : String)
    (parseJson : List Char → Option Envelope)
    (text : List Char) (srcAddress : String) (srcPort : Nat) : List UdpAction :=
  if text = [] then []
  else if DISCOVERY_MAGIC_REQ.data.isPrefixOf text then
    [.reply { t := some DISCOVERY_MAGIC_RES, info := some localInfo } srcPort srcAddress]
  else if ['\x7b'].isPrefixOf text then
    processParsed instanceId (parseJson text)
  else []

/-! ### Transfer counters

`activeSends`/`activeReceives` are module-level JS numbers.  Every increment
in lanShare.ts is `x++` and every decrement is `x = Math.max(0, x - 1)`
(lines 421, 451, 481, 521, 757, 777, 957, 977).  A `CounterOp` records one
such mutation; `applyOps` replays a sequence of them. -/

/-- One mutation of the two transfer counters, as performed by the source. -/
inductive CounterOp where
  | incSends
  | decSends
  | incReceives
  | decReceives
deriving DecidableEq

/-- The pair of module-level counters. -/
structure Counters where
  activeSends : Int
  activeReceives : Int
deriving DecidableEq

/-- Both counters start at 0 (lanShare.ts lines 68-69). -/
def initialCounters : Counters := { activeSends := 0, activeReceives := 0 }

/-- Apply one counter mutation; decrements are `Math.max(0, x - 1)`. -/
def Counters.apply (c : Counters) : CounterOp → Counters
  | .incSends => { c with activeSends := c.activeSends + 1 }
  | .decSends => { c with activeSends := max 0 (c.activeSends - 1) }
  | .incReceives => { c with activeReceives := c.activeReceives + 1 }
  | .decReceives => { c with activeReceives := max 0 (c.activeReceives - 1) }

/-- Replay a sequence of counter mutations. -/
def applyOps : Counters → List CounterOp → Counters
  | c, [] => c
  | c, op :: rest => applyOps (c.apply op) rest

/-! ### Sender side: `httpPostStream` (lines 710-802) and the `lan:share`
handler (lines 839-995) -/

/-- OfferResponse as received by the sender (lanShare.ts lines 50-57),
restricted to the fields the sender inspects. -/
structure OfferResponseM where
  accept : Bool
  uploadUrl : Option String
  token : Option String
  message : Option String
deriving DecidableEq

/-- How the streamed upload inside `httpPostStream` plays out:
`statFail` — `fs.statSync` throws before the request starts (outer catch,
line 794); `reqError` — the request errors after streaming began (line 776);
`response s` — the server answered with HTTP status `s`. -/
inductive UploadOutcome where
  | statFail
  | reqError
  | response (status : Nat)
deriving DecidableEq

/-- The resolved value of `httpPostStream` (it never rejects). -/
structure StreamResult where
  ok : Bool
  status : Nat
deriving DecidableEq

/-- `httpPostStream` modelled as the counter mutations it performs plus its
resolved value.  `activeSends++` happens at line 757, after `http.request`
succeeded, so the `statFail` path performs no increment; the request-error
handler decrements (line 777); a served response resolves
`ok := statusCode === 200` with no decrement inside the function. -/
def httpPostStream : UploadOutcome → List CounterOp × StreamResult
  | .statFail => ([], { ok := false, status := 0 })
  | .reqError => ([.incSends, .decSends], { ok := false, status := 0 })
  | .response s => ([.incSends], { ok := s == 200, status := s })

/-- The structured result the `lan:share` IPC handler returns. -/
structure ShareResult where
  ok : Bool
  declined : Bool
  error : Option String
deriving DecidableEq

/-- Everything observable about one `lan:share` run: counter mutations, the
returned result, whether `zipSource` produced the outbound archive, and
whether `fs.rmSync(zipPath)` was invoked on it. -/
structure ShareOutcome where
  ops : List CounterOp
  result : ShareResult
  zipCreated : Bool
  zipRmCalled : Bool
deriving DecidableEq

/-- The `lan:share` handler (lanShare.ts lines 839-995).  `offer` is the
outcome of the `/lan/offer` POST (`Except.error` when `httpPostJson`
rejects on connection failure or timeout — caught at line 991); `zip` is
the outcome of `zipSource` (its rejection is caught at line 991 too);
`upload` is the outcome of the streamed upload.  The decline test mirrors
`!resOffer?.accept || !resOffer?.uploadUrl` (the empty string is falsy).
`fs.rmSync(zipPath)` runs right after `httpPostStream` resolves (line 953),
before the handler inspects `up.ok`, and the handler then decrements
`activeSends` on BOTH the failure branch (line 957) and the success branch
(line 977). -/
def lanShare (offer : Except String OfferResponseM)
    (zip : Except String Unit) (upload : UploadOutcome) : ShareOutcome :=
  match offer with
  | .error e =>
    { ops := []
      result := { ok := false, declined := false, error := some e }
      zipCreated := false
      zipRmCalled := false }
  | .ok r =>
    if r.accept = true ∧ r.uploadUrl.getD "" ≠ "" then
      match zip with
      | .error e =>
        { ops := []
          result := { ok := false, declined := false, error := some e }
          zipCreated := false
          zipRmCalled := false }
      | .ok _ =>
        let step := httpPostStream upload
        if step.2.ok then
          { ops := step.1 ++ [.decSends]
            result := { ok := true, declined := false, error := none }
            zipCreated := true
            zipRmCalled := true }
        else
          { ops := step.1 ++ [.decSends]
            result := { ok := false, declined := false, error := some "Upload failed" }
            zipCreated := true
            zipRmCalled := true }
    else
      { ops := []
        result := { ok := false, declined := true, error := none }
        zipCreated := false
        zipRmCalled := false }

/-! ### Receiver side: the `/lan/offer` and `/lan/upload` handlers
(lanShare.ts lines 317-527) -/

/-- One entry of the `pendingUploads` map (lanShare.ts lines 235-240). -/
structure PendingUpload where
  destDir : String
  createdAt : Nat
  projectName : String
  transferId : String
deriving DecidableEq

/-- The `pendingUploads` map, token-keyed. -/
abbrev PendingMap := List (String × PendingUpload)

/-- `pendingUploads.get`. -/
def lookupToken : PendingMap → String → Option PendingUpload
  | [], _ => none
  | kv :: rest, t => if kv.1 = t then some kv.2 else lookupToken rest t

/-- `pendingUploads.delete`. -/
def deleteToken : PendingMap → String → PendingMap
  | [], _ => []
  | kv :: rest, t => if kv.1 = t then deleteToken rest t else kv :: deleteToken rest t

/-- What the `/lan/offer` handler observably does once the decision is in. -/
structure OfferHandlerOutcome where
  response : OfferResponseM
  pending : PendingMap
  /-- `destDir` passed to `ensureDir`, when a directory is created. -/
  dirCreated : Option String
deriving DecidableEq

/-- The `/lan/offer` handler after `waitForOfferDecision` resolved with
`accept` (lanShare.ts lines 337-403): on decline, the map and file system
are untouched; on accept it builds `destDir` from the sanitized project
name and a timestamp, creates the directory, mints one token and stores
exactly one `PendingUpload` under it. -/
def handleOffer (m : PendingMap) (accept : Bool) (projectName : String)
    (receivedRoot : String) (ts : String) (token : String) (transferId : String)
    (now : Nat) : OfferHandlerOutcome :=
  if accept then
    let base := String.mk (sanitize (jsOr projectName "Project").data)
    let destDir := receivedRoot ++ "/" ++ base ++ "_" ++ ts
    { response :=
        { accept := true
          uploadUrl := some ("/lan/upload?token=" ++ token)
          token := some token
          message := none }
      pending := (token,
        { destDir := destDir
          createdAt := now
          projectName := base
          transferId := transferId }) :: m
      dirCreated := some destDir }
  else
    { response := { accept := false, uploadUrl := none, token := none, message := some "Declined" }
      pending := m
      dirCreated := none }

/-- How streaming the upload body into `incoming.zip` plays out:
`saved` — the write stream closed normally; `reqError msg` — the request
errored (handler at line 447: decrement, emit, reject); `wsError msg` — the
write stream errored (line 461: reject only). -/
inductive StreamOutcome where
  | saved
  | reqError (msg : String)
  | wsError (msg : String)
deriving DecidableEq

/-- Outcome of `extract(tmpZip, ...)` (line 472). -/
inductive ExtractOutcome where
  | extracted
  | failed (msg : String)
deriving DecidableEq

/-- The HTTP response the `/lan/upload` handler sends. -/
structure HttpResponse where
  status : Nat
  ok : Bool
  error : Option String
deriving DecidableEq

/-- Everything observable about one `/lan/upload` request: the response,
the pending map afterwards, the counter mutations, whether any directory
was created, and whether `incoming.zip` was created / deleted. -/
structure UploadHandlerOutcome where
  response : HttpResponse
  pending : PendingMap
  ops : List CounterOp
  dirCreated : Bool
  tmpZipCreated : Bool
  tmpZipDeleted : Bool
deriving DecidableEq

/-- Response and state for an upload whose token fails the lookup
(lanShare.ts lines 411-415): immediate 400, nothing else happens. -/
def invalidTokenOutcome (m : PendingMap) : UploadHandlerOutcome :=
  { response := { status := 400, ok := false, error := some "Invalid token" }
    pending := m
    ops := []
    dirCreated := false
    tmpZipCreated := false
    tmpZipDeleted := false }

/-- The `/lan/upload` handler (lanShare.ts lines 407-527).  A failing token
lookup answers 400 before any state is touched.  With a valid token the
write stream for `incoming.zip` is opened (creating the file) and
`activeReceives++` runs; a request error decrements and rejects (the outer
catch answers 500) with the partial zip left in place; a write-stream error
rejects WITHOUT decrementing; after a saved stream, `extract` runs with
`fs.rmSync(tmpZip)` in its `finally`, the failure branch answering 500 and
decrementing, the success branch deleting the token, decrementing and
answering 200. -/
def handleUpload (m : PendingMap) (token : String)
    (stream : StreamOutcome) (ext : ExtractOutcome) : UploadHandlerOutcome :=
  match lookupToken m token with
  | none => invalidTokenOutcome m
  | some _ =>
    match stream with
    | .reqError msg =>
      { response := { status := 500, ok := false, error := some msg }
        pending := m
        ops := [.incReceives, .decReceives]
        dirCreated := false
        tmpZipCreated := true
        tmpZipDeleted := false }
    | .wsError msg =>
      { response := { status := 500, ok := false, error := some msg }
        pending := m
        ops := [.incReceives]
        dirCreated := false
        tmpZipCreated := true
        tmpZipDeleted := false }
    | .saved =>
      match ext with
      | .failed msg =>
        { response := { status := 500, ok := false, error := some ("Extract failed: " ++ msg) }
          pending := m
          ops := [.incReceives, .decReceives]
          dirCreated := false
          tmpZipCreated := true
          tmpZipDeleted := true }
      | .extracted =>
        { response := { status := 200, ok := true, error := none }
          pending := deleteToken m token
          ops := [.incReceives, .decReceives]
          dirCreated := false
          tmpZipCreated := true
          tmpZipDeleted := true }

/-! ### Pending-offer decisions: `waitForOfferDecision` (lines 265-296) and
the `lan:offer-reply` handler (lines 824-836) -/

/-- Default `timeoutMs` of `waitForOfferDecision` (line 268). -/
def waitForOfferDecisionDefaultMs : Nat := 30000

/-- The timeout the `/lan/offer` handler actually passes (line 335). -/
def lanOfferDecisionTimeoutMs : Nat := 60000

/-- State of one pending offer: whether its callback is still in
`pendingOffers`, whether the promise already settled, and with what value
(`some accept`) it resolved. -/
structure OfferWait where
  inMap : Bool
  settled : Bool
  result : Option Bool
deriving DecidableEq

/-- State right after `waitForOfferDecision` stored the callback. -/
def initOfferWait : OfferWait := { inMap := true, settled := false, result := none }

/-- The value an IPC `lan:offer-reply` call returns. -/
structure IpcReply where
  ok : Bool
  error : Option String
deriving DecidableEq

/-- An event acting on one pending offer: an IPC `decide` call carrying an
accept flag, or the `setTimeout` callback firing. -/
inductive OfferEvent where
  | decide (accept : Bool)
  | timeout
deriving DecidableEq

/-- One event against one pending offer.  A `decide` that finds the callback
deletes the map entry and runs `done(accept)`, which settles the promise
only if it was not settled; a `decide` that finds nothing returns
`{ok:false, error:'Offer not found'}` and changes nothing.  The timeout
callback checks `settled` first: if not settled it deletes the entry and
resolves `false` (decline); otherwise it does nothing.  The second
component is the IPC reply (`none` for the timer, which is not an IPC
call). -/
def stepOffer (w : OfferWait) : OfferEvent → OfferWait × Option IpcReply
  | .decide acc =>
    if w.inMap then
      ({ inMap := false
         settled := true
         result := if w.settled then w.result else some acc },
       some { ok := true, error := none })
    else
      (w, some { ok := false, error := some "Offer not found" })
  | .timeout =>
    if w.settled then (w, none)
    else ({ inMap := false, settled := true, result := some false }, none)

/-- Replay a sequence of events against one pending offer. -/
def foldOffer : OfferWait → List OfferEvent → OfferWait
  | w, [] => w
  | w, e :: rest => foldOffer (stepOffer w e).1 rest

/-! ### Sample data used by concrete witnesses and counterexamples -/

/-- A concrete pending-upload entry. -/
def samplePending : PendingUpload :=
  { destDir := "root/Notes_2026-01-01_000000"
    createdAt := 0
    projectName := "Notes"
    transferId := "tid001" }

/-- A concrete accepted OfferResponse. -/
def sampleAccept : OfferResponseM :=
  { accept := true
    uploadUrl := some "/lan/upload?token=tok1"
    token := some "tok1"
    message := none }

/-- A concrete PeerInfo for discovery examples. -/
def samplePeer : PeerInfo :=
  { id := "aabbccdd00112233"
    name := "host-a"
    username := none
    displayName := none
    hostname := "host-a"
    platform := "linux"
    arch := "x64"
    version := some "1.0.0"
    addresses := ["192.168.1.7"]
    httpPort := 40001 }

/-- A concrete environment with default (absent) broadcast settings. -/
def sampleEnvA : LocalEnv :=
  { instanceId := "i1"
    hostname := "alpha"
    login := "alice"
    displayNameCache := some "Alice Ardent"
    lanSettings := none
    platform := "linux"
    arch := "x64"
    appVersion := none
    addresses := ["192.168.1.7"]
    httpPort := some 40001 }

/-- Same environment with a different login name and display-name cache. -/
def sampleEnvB : LocalEnv :=
  { sampleEnvA with login := "bob", displayNameCache := none }

/-! ## Helper lemmas -/

/-- No character of the output of the regex replacement is in the class. -/
theorem mem_replaceSpecialRuns (l : List Char) :
    ∀ b c, c ∈ replaceSpecialRuns b l → isSanitizeSpecial c = false := by
  induction l with
  | nil =>
    intro b c h
    simp [replaceSpecialRuns] at h
  | cons a rest ih =>
    intro b c h
    cases ha : isSanitizeSpecial a with
    | true =>
      cases b with
      | true =>
        rw [replaceSpecialRuns, if_pos ha, if_pos rfl] at h
        exact ih true c h
      | false =>
        rw [replaceSpecialRuns, if_pos ha, if_neg (by simp)] at h
        rcases List.mem_cons.mp h with h2 | h2
        · subst h2; decide
        · exact ih true c h2
    | false =>
      rw [replaceSpecialRuns, if_neg (by simp [ha])] at h
      rcases List.mem_cons.mp h with h2 | h2
      · subst h2; exact ha
      · exact ih false c h2

/-- Trimming only drops characters. -/
theorem mem_trimChars {l : List Char} {c : Char} (h : c ∈ trimChars l) : c ∈ l := by
  unfold trimChars at h
  rw [List.mem_reverse] at h
  have h2 := (List.dropWhile_sublist Char.isWhitespace).subset h
  rw [List.mem_reverse] at h2
  exact (List.dropWhile_sublist Char.isWhitespace).subset h2

/-- The head surviving a `dropWhile` falsifies the predicate. -/
theorem head?_dropWhile_not (p : Char → Bool) :
    ∀ (l : List Char) (c : Char), (l.dropWhile p).head? = some c → p c = false := by
  intro l
  induction l with
  | nil =>
    intro c h
    simp [List.dropWhile] at h
  | cons a rest ih =>
    intro c h
    cases hp : p a with
    | true =>
      rw [List.dropWhile_cons, if_pos hp] at h
      exact ih c h
    | false =>
      rw [List.dropWhile_cons, if_neg (by simp [hp])] at h
      simp only [List.head?_cons, Option.some.injEq] at h
      rw [← h]
      exact hp

/-- `dropWhile` preserves the last element when its result is nonempty. -/
theorem getLast?_dropWhile (p : Char → Bool) (l : List Char) :
    l.dropWhile p = [] ∨ (l.dropWhile p).getLast? = l.getLast? := by
  induction l with
  | nil => exact Or.inl rfl
  | cons a rest ih =>
    cases hp : p a with
    | false =>
      right
      rw [List.dropWhile_cons, if_neg (by simp [hp])]
    | true =>
      rw [List.dropWhile_cons, if_pos hp]
      by_cases hdp : rest.dropWhile p = []
      · exact Or.inl hdp
      · right
        rcases ih with h | h
        · exact absurd h hdp
        · rw [h]
          cases rest with
          | nil => simp [List.dropWhile] at hdp
          | cons b rs => rw [List.getLast?_cons_cons]

/-- The first character of a trimmed list is not whitespace. -/
theorem trimChars_head_not_ws (l : List Char) (c : Char)
    (h : (trimChars l).head? = some c) : c.isWhitespace = false := by
  unfold trimChars at h
  rw [List.head?_reverse] at h
  rcases getLast?_dropWhile Char.isWhitespace ((l.dropWhile Char.isWhitespace).reverse)
    with hnil | heq
  · rw [hnil] at h
    simp at h
  · rw [heq, List.getLast?_reverse] at h
    exact head?_dropWhile_not Char.isWhitespace _ c h

/-- The last character of a trimmed list is not whitespace. -/
theorem trimChars_getLast_not_ws (l : List Char) (c : Char)
    (h : (trimChars l).getLast? = some c) : c.isWhitespace = false := by
  unfold trimChars at h
  rw [List.getLast?_reverse] at h
  exact head?_dropWhile_not Char.isWhitespace _ c h

/-- A counter stays componentwise nonnegative under one source mutation. -/
theorem Counters.apply_nonneg (c : Counters) (op : CounterOp)
    (hs : 0 ≤ c.activeSends) (hr : 0 ≤ c.activeReceives) :
    0 ≤ (c.apply op).activeSends ∧ 0 ≤ (c.apply op).activeReceives := by
  cases op <;> simp [Counters.apply] <;> omega

/-- Replaying any mutation sequence preserves nonnegativity. -/
theorem applyOps_nonneg (ops : List CounterOp) :
    ∀ c : Counters, 0 ≤ c.activeSends → 0 ≤ c.activeReceives →
      0 ≤ (applyOps c ops).activeSends ∧ 0 ≤ (applyOps c ops).activeReceives := by
  induction ops with
  | nil => intro c hs hr; exact ⟨hs, hr⟩
  | cons op rest ih =>
    intro c hs hr
    have h := Counters.apply_nonneg c op hs hr
    exact ih (c.apply op) h.1 h.2

/-- A list is a prefix of itself followed by anything (`startsWith`). -/
theorem isPrefixOf_append_self (l t : List Char) : l.isPrefixOf (l ++ t) = true := by
  induction l with
  | nil => simp [List.isPrefixOf]
  | cons a as ih => simp [List.isPrefixOf, ih]

/-- The request magic string never prefixes a datagram opening with a brace. -/
theorem magicReq_not_prefixOf_brace (tl : List Char) :
    DISCOVERY_MAGIC_REQ.data.isPrefixOf ('\x7b' :: tl) = false := by
  rw [show DISCOVERY_MAGIC_REQ.data = 'E' :: "RB_DISCOVER_REQ_V1".data from rfl]
  simp [List.isPrefixOf]

/-- On a datagram that begins with a brace, the handler runs the JSON branch. -/
theorem handleUdpMessage_brace (localInfo : PeerInfo) (instanceId : String)
    (parseJson : List Char → Option Envelope) (tl : List Char)
    (srcAddress : String) (srcPort : Nat) :
    handleUdpMessage localInfo instanceId parseJson ('\x7b' :: tl) srcAddress srcPort
      = processParsed instanceId (parseJson ('\x7b' :: tl)) := by
  unfold handleUdpMessage
  rw [if_neg (by simp), if_neg (by simp [magicReq_not_prefixOf_brace]),
    if_pos (by simp [List.isPrefixOf])]

/-- Looking up a token right after deleting it fails. -/
theorem lookupToken_deleteToken (m : PendingMap) (t : String) :
    lookupToken (deleteToken m t) t = none := by
  induction m with
  | nil => rfl
  | cons kv rest ih =>
    by_cases h : kv.1 = t
    · simpa [deleteToken, h] using ih
    · simp [deleteToken, lookupToken, h, ih]

/-- An upload whose token is not pending is rejected immediately. -/
theorem handleUpload_unknown (m : PendingMap) (t : String)
    (s : StreamOutcome) (ext : ExtractOutcome)
    (h : lookupToken m t = none) :
    handleUpload m t s ext = invalidTokenOutcome m := by
  unfold handleUpload
  rw [h]

/-- One event preserves the invariant `settled = !inMap`. -/
theorem stepOffer_preserves_inv (w : OfferWait) (e : OfferEvent)
    (h : w.settled = !w.inMap) :
    (stepOffer w e).1.settled = !(stepOffer w e).1.inMap := by
  cases e with
  | decide a =>
    by_cases hm : w.inMap = true
    · simp [stepOffer, hm]
    · simp only [stepOffer]
      rw [if_neg hm]
      exact h
  | timeout =>
    by_cases hs : w.settled = true
    · simp only [stepOffer]
      rw [if_pos hs]
      exact h
    · simp [stepOffer, hs]

/-- The invariant `settled = !inMap` holds along any event sequence. -/
theorem foldOffer_preserves_inv (evs : List OfferEvent) :
    ∀ w : OfferWait, w.settled = !w.inMap →
      (foldOffer w evs).settled = !(foldOffer w evs).inMap := by
  induction evs with
  | nil => intro w h; exact h
  | cons e rest ih =>
    intro w h
    exact ih (stepOffer w e).1 (stepOffer_preserves_inv w e h)

/-- Once settled (and thus out of the map), no event changes the state. -/
theorem stepOffer_frozen (w : OfferWait) (e : OfferEvent)
    (hinv : w.settled = !w.inMap) (hs : w.settled = true) :
    (stepOffer w e).1 = w := by
  have hm : w.inMap = false := by
    rw [hs] at hinv
    cases h : w.inMap
    · rfl
    · rw [h] at hinv
      simp at hinv
  cases e with
  | decide a => simp [stepOffer, hm]
  | timeout => simp [stepOffer, hs]

/-- A settled offer state is unchanged by any further event sequence. -/
theorem foldOffer_frozen (evs : List OfferEvent) :
    ∀ w : OfferWait, w.settled = !w.inMap → w.settled = true →
      foldOffer w evs = w := by
  induction evs with
  | nil => intro w _ _; rfl
  | cons e rest ih =>
    intro w hinv hs
    have h1 := stepOffer_frozen w e hinv hs
    calc foldOffer w (e :: rest) = foldOffer (stepOffer w e).1 rest := rfl
      _ = foldOffer w rest := by rw [h1]
      _ = w := ih w hinv hs

/-! ## Claim theorems -/

/-- Claim C1 (code-bug evaluation).  A sender transfer whose streamed upload
request errors reaches a terminal state with TWO decrements of
`activeSends`: one in `httpPostStream`'s request-error handler (line 777)
and one in the `lan:share` handler's failure branch (line 957).  Starting
from `activeSends = 1` (another send in flight), replaying the ops of this
single transfer drags the counter to 0, absorbing the other transfer's
count — the claimed exactly-once decrement and net-zero effect fail.  The
third conjunct shows the receiver-side dual: a write-stream error
terminates an upload with an increment and no decrement at all. -/
theorem sender_counter_decremented_twice_on_upload_error :
    (lanShare (.ok sampleAccept) (.ok ()) .reqError).ops
      = [.incSends, .decSends, .decSends] ∧
    (applyOps { activeSends := 1, activeReceives := 0 }
        (lanShare (.ok sampleAccept) (.ok ()) .reqError).ops).activeSends = 0 ∧
    (handleUpload [("tok1", samplePending)] "tok1" (.wsError "EIO") .extracted).ops
      = [.incReceives] := by
  decide

/-- Claim C2.  For every accepted offer exactly one PendingUpload token is
minted; an upload whose token is not pending is answered immediately with
400 `{ok:false, error:'Invalid token'}`, leaving the map untouched, creating
no directory and not touching the counters or any file; a completed upload
removes its token from the map, and a second upload with the consumed token
gets the same invalid-token rejection. -/
theorem pending_upload_token_single_use
    (m : PendingMap) (projectName receivedRoot ts token transferId unknownTok : String)
    (now : Nat) (pu : PendingUpload)
    (hunk : lookupToken m unknownTok = none) :
    ((handleOffer m true projectName receivedRoot ts token transferId now).pending.length
        = m.length + 1) ∧
    ((lookupToken
        (handleOffer m true projectName receivedRoot ts token transferId now).pending
        token).isSome = true) ∧
    (∀ s ext, handleUpload m unknownTok s ext = invalidTokenOutcome m) ∧
    (lookupToken (handleUpload ((token, pu) :: m) token .saved .extracted).pending token
        = none) ∧
    (∀ s ext,
      handleUpload (handleUpload ((token, pu) :: m) token .saved .extracted).pending
          token s ext
        = invalidTokenOutcome
            (handleUpload ((token, pu) :: m) token .saved .extracted).pending) := by
  have hfound : lookupToken ((token, pu) :: m) token = some pu := by
    simp [lookupToken]
  have hpend : (handleUpload ((token, pu) :: m) token .saved .extracted).pending
      = deleteToken ((token, pu) :: m) token := by
    unfold handleUpload
    rw [hfound]
  have hdel : lookupToken
      (handleUpload ((token, pu) :: m) token .saved .extracted).pending token = none := by
    rw [hpend]
    exact lookupToken_deleteToken _ _
  refine ⟨?_, ?_, ?_, hdel, ?_⟩
  · simp [handleOffer]
  · simp [handleOffer, lookupToken]
  · intro s ext
    exact handleUpload_unknown m unknownTok s ext hunk
  · intro s ext
    exact handleUpload_unknown _ token s ext hdel

/-- Witness for C2 at concrete inputs: after a completed upload consumed
token `tok1`, the token is gone from the pending map. -/
theorem pending_upload_token_single_use_witness :
    lookupToken
        (handleUpload [("tok1", samplePending)] "tok1" .saved .extracted).pending "tok1"
      = none :=
  (pending_upload_token_single_use [] "Notes" "root" "2026-01-01_000000" "tok1" "tid001"
      "unknown" 0 samplePending rfl).2.2.2.1

/-- Claim C3 counterexample.  The regex character class `[\/:*?"<>|]` does
not contain the backslash, so `sanitize` leaves `a\b` unchanged instead of
producing `a_b` as the claim requires. -/
theorem sanitize_backslash_not_replaced :
    sanitize "a\\b".data = ['a', '\\', 'b'] ∧ sanitize "a\\b".data ≠ "a_b".data := by
  decide

/-- Claim C3 (amended).  `sanitize` replaces every maximal run of the
characters / : * ? " < > | — the backslash is NOT in the replaced set, and
a run of class characters collapses to a single underscore — with `_`, and
trims leading and trailing whitespace; in particular `a/b:c*d` sanitizes to
`a_b_c_d`. -/
theorem sanitize_amended (l : List Char) :
    (∀ c, c ∈ sanitize l → isSanitizeSpecial c = false) ∧
    (∀ c, (sanitize l).head? = some c → c.isWhitespace = false) ∧
    (∀ c, (sanitize l).getLast? = some c → c.isWhitespace = false) ∧
    sanitize "a/b:c*d".data = "a_b_c_d".data ∧
    sanitize "a\\b".data = "a\\b".data ∧
    sanitize "a//b".data = "a_b".data ∧
    sanitize " a b ".data = "a b".data := by
  refine ⟨?_, ?_, ?_, by decide, by decide, by decide, by decide⟩
  · intro c h
    exact mem_replaceSpecialRuns l false c (mem_trimChars h)
  · intro c h
    exact trimChars_head_not_ws _ c h
  · intro c h
    exact trimChars_getLast_not_ws _ c h

/-- Witness for the amended sanitize theorem: the underscore produced for
`a/b` is not itself a class character. -/
theorem sanitize_amended_witness : isSanitizeSpecial '_' = false :=
  (sanitize_amended "a/b".data).1 '_' (by decide)

/-- Claim C4 counterexample.  With a valid token, a request-stream error
aborts the save step; the outer catch answers 500 and `incoming.zip` —
already created by the write stream — is never deleted: an error exit path
of the transfer that leaves the temporary archive behind. -/
theorem incoming_zip_left_behind_on_stream_error :
    (handleUpload [("tok1", samplePending)] "tok1" (.reqError "ECONNRESET")
        .extracted).tmpZipCreated = true ∧
    (handleUpload [("tok1", samplePending)] "tok1" (.reqError "ECONNRESET")
        .extracted).tmpZipDeleted = false := by
  decide

/-- Claim C4 (amended).  Temporary archives are cleaned up best-effort on
the claimed paths with one exception: the sender's outbound zip is deleted
(`fs.rmSync`) after the upload attempt regardless of its outcome, and the
receiver's incoming zip is deleted whether extraction succeeds or fails —
but a stream error while receiving rejects before the extract step's
`finally` is reached and leaves the partial incoming zip undeleted. -/
theorem tmp_archive_cleanup_amended
    (r : OfferResponseM) (upload : UploadOutcome)
    (m : PendingMap) (token : String) (pu : PendingUpload) (ext : ExtractOutcome)
    (hacc : r.accept = true) (hurl : r.uploadUrl.getD "" ≠ "")
    (hfound : lookupToken m token = some pu) :
    ((lanShare (.ok r) (.ok ()) upload).zipCreated = true ∧
     (lanShare (.ok r) (.ok ()) upload).zipRmCalled = true) ∧
    (handleUpload m token .saved ext).tmpZipDeleted = true := by
  constructor
  · have hstep : lanShare (.ok r) (.ok ()) upload
        = (if (httpPostStream upload).2.ok then
            { ops := (httpPostStream upload).1 ++ [.decSends]
              result := { ok := true, declined := false, error := none }
              zipCreated := true
              zipRmCalled := true }
          else
            { ops := (httpPostStream upload).1 ++ [.decSends]
              result := { ok := false, declined := false, error := some "Upload failed" }
              zipCreated := true
              zipRmCalled := true }) := by
      simp only [lanShare]
      rw [if_pos ⟨hacc, hurl⟩]
    rw [hstep]
    by_cases hok : (httpPostStream upload).2.ok = true
    · rw [if_pos hok]
      exact ⟨rfl, rfl⟩
    · rw [if_neg hok]
      exact ⟨rfl, rfl⟩
  · unfold handleUpload
    rw [hfound]
    cases ext <;> rfl

/-- Witness for the amended cleanup theorem at concrete inputs. -/
theorem tmp_archive_cleanup_amended_witness :
    (lanShare (.ok sampleAccept) (.ok ()) .reqError).zipRmCalled = true ∧
    (handleUpload [("tok1", samplePending)] "tok1" .saved
        (.failed "bad zip")).tmpZipDeleted = true := by
  have h := tmp_archive_cleanup_amended sampleAccept .reqError
      [("tok1", samplePending)] "tok1" samplePending (.failed "bad zip")
      rfl (by decide) (by simp [lookupToken])
  exact ⟨h.1.2, h.2⟩

/-- Claim C5.  Along any event sequence on one pending offer: a settled
decision has left the map; a settled state is never changed again by any
further events (at most one resolution, first value wins); a decide call
that finds no entry — second call, or call after the timeout — is a no-op
returning `{ok:false, error:'Offer not found'}` without touching the state;
an unsettled offer hit by the timer resolves as decline and leaves the map;
and the `/lan/offer` handler waits with the fixed 60-second timeout. -/
theorem offer_decision_resolves_at_most_once
    (evs evs2 : List OfferEvent) (a : Bool) :
    ((foldOffer initOfferWait evs).settled = true →
        (foldOffer initOfferWait evs).inMap = false) ∧
    ((foldOffer initOfferWait evs).settled = true →
        foldOffer (foldOffer initOfferWait evs) evs2 = foldOffer initOfferWait evs) ∧
    ((foldOffer initOfferWait evs).inMap = false →
        stepOffer (foldOffer initOfferWait evs) (.decide a)
          = (foldOffer initOfferWait evs,
             some { ok := false, error := some "Offer not found" })) ∧
    ((foldOffer initOfferWait evs).settled = false →
        (stepOffer (foldOffer initOfferWait evs) .timeout).1
          = { inMap := false, settled := true, result := some false }) ∧
    lanOfferDecisionTimeoutMs = 60000 := by
  have hinv := foldOffer_preserves_inv evs initOfferWait rfl
  refine ⟨?_, ?_, ?_, ?_, rfl⟩
  · intro hs
    rw [hs] at hinv
    cases h : (foldOffer initOfferWait evs).inMap
    · rfl
    · rw [h] at hinv
      simp at hinv
  · intro hs
    exact foldOffer_frozen evs2 _ hinv hs
  · intro hm
    simp [stepOffer, hm]
  · intro hs
    simp [stepOffer, hs]

/-- Witness for C5: after a first decide, a second decide and the timeout
change nothing. -/
theorem offer_decision_resolves_at_most_once_witness :
    foldOffer (foldOffer initOfferWait [OfferEvent.decide true])
        [OfferEvent.decide false, OfferEvent.timeout]
      = foldOffer initOfferWait [OfferEvent.decide true] :=
  (offer_decision_resolves_at_most_once [OfferEvent.decide true]
      [OfferEvent.decide false, OfferEvent.timeout] false).2.1 (by decide)

/-- Claim C6.  For a received discovery response datagram (one that opens
with a brace and parses to an envelope whose tag is the response magic and
which embeds a PeerInfo): if the embedded id equals the local instance id
the handler produces no action (self-discovery filter), and if it differs
the handler forwards exactly the embedded PeerInfo as a discovered-peer
event. -/
theorem discovery_self_filter (localInfo : PeerInfo) (instanceId : String)
    (parseJson : List Char → Option Envelope) (text : List Char)
    (srcAddress : String) (srcPort : Nat) (env : Envelope) (i : PeerInfo)
    (hhead : text.head? = some '\x7b')
    (hparse : parseJson text = some env)
    (ht : env.t = some DISCOVERY_MAGIC_RES)
    (hinfo : env.info = some i) :
    (i.id = instanceId →
      handleUdpMessage localInfo instanceId parseJson text srcAddress srcPort = []) ∧
    (i.id ≠ instanceId →
      handleUdpMessage localInfo instanceId parseJson text srcAddress srcPort
        = [.peerEvent i]) := by
  cases text with
  | nil => simp at hhead
  | cons c tl =>
    have hc : c = '\x7b' := by simpa using hhead
    subst hc
    rw [handleUdpMessage_brace, hparse]
    obtain ⟨t, info⟩ := env
    have ht2 : t = some DISCOVERY_MAGIC_RES := ht
    have hi2 : info = some i := hinfo
    subst ht2
    subst hi2
    constructor
    · intro hid
      simp [processParsed, hid]
    · intro hid
      simp [processParsed, hid]

/-- Witness for C6: a response datagram embedding the local instance id is
dropped. -/
theorem discovery_self_filter_witness :
    handleUdpMessage samplePeer "aabbccdd00112233"
        (fun _ => some { t := some DISCOVERY_MAGIC_RES, info := some samplePeer })
        ['\x7b'] "192.168.1.9" 49372 = [] :=
  (discovery_self_filter samplePeer "aabbccdd00112233"
      (fun _ => some { t := some DISCOVERY_MAGIC_RES, info := some samplePeer })
      ['\x7b'] "192.168.1.9" 49372
      { t := some DISCOVERY_MAGIC_RES, info := some samplePeer } samplePeer
      rfl rfl rfl rfl).1 rfl

/-- Claim C7.  With default (absent or false) broadcast settings,
`getLocalInfo` discloses only the host name: `name` is the host name and
`username`/`displayName` are absent; and those three fields are independent
of the display-name cache and the login name — a second environment
differing only in those two inputs yields identical fields. -/
theorem getLocalInfo_default_hostname_only (e e2 : LocalEnv)
    (hd : effBroadcastDisplayName e = false)
    (hl : effBroadcastLoginName e = false)
    (heq : e2 = { e with login := e2.login, displayNameCache := e2.displayNameCache }) :
    (getLocalInfo e).name = e.hostname ∧
    (getLocalInfo e).username = none ∧
    (getLocalInfo e).displayName = none ∧
    (getLocalInfo e2).name = (getLocalInfo e).name ∧
    (getLocalInfo e2).username = (getLocalInfo e).username ∧
    (getLocalInfo e2).displayName = (getLocalInfo e).displayName := by
  have hd2 : effBroadcastDisplayName e2 = false := by
    rw [heq]
    simpa [effBroadcastDisplayName] using hd
  have hl2 : effBroadcastLoginName e2 = false := by
    rw [heq]
    simpa [effBroadcastLoginName] using hl
  have hh : e2.hostname = e.hostname := by rw [heq]
  refine ⟨?_, ?_, ?_, ?_, ?_, ?_⟩ <;>
    simp [getLocalInfo, hd, hl, hd2, hl2, hh]

/-- Witness for C7: two environments differing only in login and cache
agree on the disclosed fields, which reduce to the host name. -/
theorem getLocalInfo_default_hostname_only_witness :
    (getLocalInfo sampleEnvA).name = "alpha" ∧
    (getLocalInfo sampleEnvB).username = (getLocalInfo sampleEnvA).username := by
  have h := getLocalInfo_default_hostname_only sampleEnvA sampleEnvB rfl rfl rfl
  exact ⟨h.1, h.2.2.2.2.1⟩

/-- Claim C8.  Starting from the initial zero counters, replaying any
sequence of the source's counter mutations — increments, and decrements
computed as `Math.max(0, x - 1)` — keeps both `activeSends` and
`activeReceives` nonnegative. -/
theorem counters_never_negative (ops : List CounterOp) :
    0 ≤ (applyOps initialCounters ops).activeSends ∧
    0 ≤ (applyOps initialCounters ops).activeReceives :=
  applyOps_nonneg ops initialCounters (by decide) (by decide)

/-- Claim C9.  Every datagram whose text begins with the request magic
string — whatever bytes follow it — makes the handler send exactly one
unicast reply to the observed source address and port, carrying the
envelope `{t: response-magic, info: local PeerInfo}`. -/
theorem discovery_request_matched_by_prefix_only
    (localInfo : PeerInfo) (instanceId : String)
    (parseJson : List Char → Option Envelope)
    (extra : List Char) (srcAddress : String) (srcPort : Nat) :
    handleUdpMessage localInfo instanceId parseJson
        (DISCOVERY_MAGIC_REQ.data ++ extra) srcAddress srcPort
      = [.reply { t := some DISCOVERY_MAGIC_RES, info := some localInfo }
          srcPort srcAddress] := by
  have hne : DISCOVERY_MAGIC_REQ.data ++ extra ≠ [] := by
    intro h
    exact absurd (List.append_eq_nil.mp h).1 (by decide)
  unfold handleUdpMessage
  rw [if_neg hne, if_pos (isPrefixOf_append_self DISCOVERY_MAGIC_REQ.data extra)]

/-- Claim C10.  When the offer POST rejects (connection failure or
timeout), `lan:share` returns `{ok:false, error}` built from the caught
exception, performs no counter mutation — replaying its (empty) ops leaves
any counter state unchanged — and creates no sender-side temporary
archive. -/
theorem share_offer_failure_leaves_state_unchanged (e : String)
    (zip : Except String Unit) (upload : UploadOutcome) (c : Counters) :
    lanShare (.error e) zip upload
      = { ops := []
          result := { ok := false, declined := false, error := some e }
          zipCreated := false
          zipRmCalled := false } ∧
    applyOps c (lanShare (.error e) zip upload).ops = c :=
  ⟨rfl, rfl⟩

end LanShare
